import Mathlib

/-!
Shallow embedding of the RAG chatbot (file RAG_Chatbot.ipynb).

The program is a command-line retrieval-augmented question-answering tool:
setup reads an API key, prompts for a URL, loads and splits the document,
builds a vector store, wraps it in a retriever tool handed to an agent, and
finally runs an interactive question loop ended by the sentinel "exit".

Functions `setup_environment`, `load_and_split_documents`,
`create_vector_store`, `start_interactive_session` and `main` are translated
from the notebook source; external library components (the recursive text
splitter, the vector-index search and the agent executor loop) are modelled
from the specification, each such definition saying so in its doc comment.
Text is represented as `String` / `List Char`; Python exceptions become
`Except` / `Option`; printed output and prompts become explicit event traces.
-/

/-! ### Python string semantics used by the source -/

/-- ASCII lowering of one character, as Python `str.lower` acts on ASCII. -/
def lowerChar (c : Char) : Char :=
  if 65 ≤ c.toNat ∧ c.toNat ≤ 90 then Char.ofNat (c.toNat + 32) else c

/-- Python `s.lower()` on ASCII text: lower each character, nothing else
(no trimming, no normalisation). -/
def pyLower (s : String) : String := String.mk (s.data.map lowerChar)

/-- Python truthiness of an optional string (`os.getenv` result):
`None` and the empty string are falsy. -/
def pythonTruthyStr : Option String → Bool
  | none => false
  | some s => !(s == "")

/-- Python truthiness of an optional list (`doc_splits`):
`None` and the empty list are falsy. -/
def pythonTruthyList {α : Type} : Option (List α) → Bool
  | none => false
  | some l => !l.isEmpty

/-! ### Chunker

The source calls `RecursiveCharacterTextSplitter(chunk_size=1000,
chunk_overlap=200).split_documents(docs)`; the splitter itself is library
code, so it is modelled from the specification. -/

/-- Chunk size configured in `load_and_split_documents`. -/
def chunk_size : Nat := 1000

/-- Chunk overlap configured in `load_and_split_documents`. -/
def chunk_overlap : Nat := 200

/-- Fuel-indexed worker for `splitText`: emit a window of `cs` characters,
then restart `ov` characters before the end of that window, until the
remaining text fits in one chunk.  The fuel only forces termination; it is
never exhausted when it starts at the text length. -/
def splitTextAux (cs ov : Nat) : Nat → List Char → List (List Char)
  | 0, t => [t]
  | fuel + 1, t =>
    if t.length ≤ cs then [t]
    else t.take cs :: splitTextAux cs ov fuel (t.drop (cs - ov))

/-- Modelled from the spec: the Chunker contract of section 4.1
(`split(document, chunk_size, chunk_overlap)`), whose implementation
(`RecursiveCharacterTextSplitter.split_text`) is library code not in this
repository.  At the raw-character fallback level of the spec's separator
hierarchy, each emitted chunk is as large as possible without exceeding
`cs` and adjacent chunks share `ov` trailing/leading characters.  A
configuration violating `0 ≤ ov < cs` fails fast with no chunks. -/
def splitText (cs ov : Nat) (t : List Char) : List (List Char) :=
  if cs ≤ ov ∨ cs = 0 then [] else splitTextAux cs ov t.length t

/-- Boolean check that every adjacent pair of chunks agrees on the boundary:
the last `ov` characters of each chunk equal the first `ov` characters of
the next chunk. -/
def overlapOk (ov : Nat) : List (List Char) → Bool
  | a :: b :: rest =>
      (a.drop (a.length - ov) == b.take ov) && overlapOk ov (b :: rest)
  | _ => true

/-! ### Retriever tool

The source builds `vectorstore.as_retriever(search_kwargs={"k": 3})` and
wraps it with `create_retriever_tool(retriever, "document_search", ...)`;
the nearest-neighbour search is library code, modelled from the spec. -/

/-- Retrieval depth `k` fixed at construction time in
`create_agent_executor` (`search_kwargs` sets `k` to 3). -/
def retriever_k : Nat := 3

/-- Modelled from the spec: the Vector Index interface
`search(query_vector, k) -> ordered (chunk, score) pairs` of section 6,
whose implementation (Chroma similarity search) is library code not in this
repository.  Every stored chunk is scored against the query, the pairs are
ordered by descending relevance, and the first `k` are returned. -/
def vectorSearch (score : List Char → Nat) (chunks : List (List Char))
    (k : Nat) : List (List Char × Nat) :=
  ((chunks.map fun c => (c, score c)).mergeSort fun a b => a.2 ≥ b.2).take k

/-- Modelled from the spec: the Retriever Tool contract
`query(text, k) -> RetrievalResult` of section 4.2; the similarity scoring
`sim` stands for the composition of the Embedder with the index's
similarity measure, and `k` is `retriever_k` fixed at construction. -/
def document_search (sim : List Char → List Char → Nat)
    (chunks : List (List Char)) (query : List Char) : List (List Char × Nat) :=
  vectorSearch (sim query) chunks retriever_k

/-! ### Agent loop

The source builds `AgentExecutor(agent=agent, tools=tools, verbose=True)`;
the executor's reasoning/tool-call loop is library code, modelled from the
state machine of spec section 4.3. -/

/-- Record of one tool call made during a turn (spec data model). -/
structure ToolInvocation where
  tool_name : String
  arguments : String
  observation : String

/-- Outcome of one Reasoning step: the model either requests the
`document_search` tool with a query, or emits the final answer. -/
inductive ModelDecision where
  | toolCall (query : String)
  | finalAnswer (output : String)

/-- Modelled from the spec: the Agent Loop state machine of section 4.3
(`Idle → Reasoning → (ToolCall → Reasoning)* → Answered`), whose
implementation (`AgentExecutor`) is library code not in this repository.
`modelDecide` is the external language model's decision given the utterance
and the transcript of prior tool invocations; `tool` is the registered
`document_search` capability.  The `Nat` counter in the result counts the
tool-call iterations performed; when the iteration cap is exhausted the
loop answers with a stop message instead of calling the tool again. -/
def agentLoop (modelDecide : String → List ToolInvocation → ModelDecision)
    (tool : String → String) (input : String) :
    Nat → List ToolInvocation → String × Nat
  | 0, _ => ("Agent stopped due to iteration limit.", 0)
  | fuel + 1, transcript =>
    match modelDecide input transcript with
    | ModelDecision.finalAnswer out => (out, 0)
    | ModelDecision.toolCall q =>
      let r := agentLoop modelDecide tool input fuel
        (transcript ++ [⟨"document_search", q, tool q⟩])
      (r.1, r.2 + 1)

/-- Modelled from the spec: `invoke(user_input) -> output` of section 4.3,
starting from an empty turn transcript with the configured maximum number
of tool-call iterations. -/
def agent_executor_invoke (modelDecide : String → List ToolInvocation → ModelDecision)
    (tool : String → String) (maxIterations : Nat) (input : String) : String × Nat :=
  agentLoop modelDecide tool input maxIterations []

/-! ### Interactive session (`start_interactive_session`, from source)

The loop reads inputs in order; on an input whose Python-lowered form is
`"exit"` it prints the goodbye message and breaks; otherwise it invokes the
agent inside `try`, printing the answer on success and the caught error
message on failure, and continues.  The agent is abstracted as a function
`String → Except String String` (`.error` models a raised exception). -/

/-- Exit-sentinel test performed by the loop: `user_input.lower() == 'exit'`
with no trimming. -/
def isExit (userInput : String) : Bool := pyLower userInput == "exit"

/-- Observable outcome of the session loop per input: a question answered,
a question whose turn raised a caught error, or the goodbye on the
sentinel.  The question forwarded to the agent is recorded in the event. -/
inductive TurnEvent where
  | answered (question output : String)
  | errored (question message : String)
  | goodbye
  deriving DecidableEq, Repr

/-- Translation of `start_interactive_session`, applied to the (finite)
stream of user inputs; the returned trace lists one event per processed
input, in order.  An exhausted input stream ends the trace without a
goodbye event. -/
def start_interactive_session (agent : String → Except String String) :
    List String → List TurnEvent
  | [] => []
  | q :: rest =>
    if isExit q then [TurnEvent.goodbye]
    else
      match agent q with
      | Except.ok out => TurnEvent.answered q out :: start_interactive_session agent rest
      | Except.error e => TurnEvent.errored q e :: start_interactive_session agent rest

/-- Questions the loop forwarded to `agent_executor.invoke`, read off the
session trace. -/
def invokedQuestions (evs : List TurnEvent) : List String :=
  evs.filterMap fun e =>
    match e with
    | TurnEvent.answered q _ => some q
    | TurnEvent.errored q _ => some q
    | TurnEvent.goodbye => none

/-! ### Setup and `main` (from source)

Observable behaviour of `main` is modelled as an event trace: messages
printed, the URL prompt shown, entry into `load_and_split_documents`
(ingestion), entry into `create_vector_store`, and entry into the
interactive loop.  Variable parts of f-string messages are dropped; the
fixed prefix of each message is kept. -/

/-- Observable events of a run of `main`. -/
inductive Event where
  | printed (msg : String)
  | promptedURL
  | ingestionStarted
  | vectorBuildStarted
  | loopStarted
  deriving DecidableEq, Repr

/-- Translation of `setup_environment`: truthiness of `GROQ_API_KEY`
decides success; each branch prints its messages. -/
def setup_environment (apiKey : Option String) : Bool × List Event :=
  if pythonTruthyStr apiKey then
    (true, [Event.printed "Groq API Key loaded successfully from .env file."])
  else
    (false,
      [Event.printed "ERROR: Groq API key not found.",
       Event.printed "Please create a .env file and add your GROQ_API_KEY to it."])

/-- Translation of `initialize_llm` (renamed: the source name is not
accepted here): construction of the model client either succeeds with a
message or is caught and reported, returning `None`. -/
def init_llm (llmOk : Bool) : Bool × List Event :=
  if llmOk then (true, [Event.printed "Groq LLM (Llama3-8b) initialized."])
  else (false, [Event.printed "Error initializing Groq LLM: "])

/-- Translation of `load_and_split_documents`: the web load is an external
effect whose outcome is the `docs` parameter (`none` models a raised
exception, caught here and reported); on success each document's text is
split with the configured chunk size and overlap and the chunk texts are
returned. -/
def load_and_split_documents (docs : Option (List (List Char))) :
    Option (List (List Char)) × List Event :=
  match docs with
  | none =>
    (none, [Event.ingestionStarted,
            Event.printed "Error loading or splitting documents: "])
  | some ds =>
    (some (ds.flatMap (splitText chunk_size chunk_overlap)),
     [Event.ingestionStarted,
      Event.printed "Loaded document(s) from the web.",
      Event.printed "Document split into chunks."])

/-- Translation of `create_vector_store`: the index build is an external
effect whose success is the `vectorOk` parameter; failure is caught and
reported, returning `None`. -/
def create_vector_store (vectorOk : Bool) : Option Unit × List Event :=
  if vectorOk then
    (some (),
     [Event.vectorBuildStarted, Event.printed "Vector store created successfully."])
  else
    (none,
     [Event.vectorBuildStarted, Event.printed "Error creating vector store: "])

/-- Events printed by a session-loop turn, as `main` shows them. -/
def turnEventToEvent : TurnEvent → Event
  | TurnEvent.answered _ out => Event.printed ("Answer: " ++ out)
  | TurnEvent.errored _ e => Event.printed ("An error occurred: " ++ e)
  | TurnEvent.goodbye => Event.printed "Exiting the system. Goodbye!"

/-- Environment of one run of `main`: the state of the outside world and
the user's inputs.  `docs` is the web loader's outcome, `agent` the built
agent's per-question behaviour, `inputs` the question-loop inputs. -/
structure Env where
  apiKey : Option String
  llmOk : Bool
  url : String
  docs : Option (List (List Char))
  vectorOk : Bool
  agent : String → Except String String
  inputs : List String

/-- Translation of `main` (renamed: Lean reserves that name for an entry
point): each guard `if not x: return` ends the trace; only when every
setup step succeeds is the interactive loop entered. -/
def main_trace (env : Env) : List Event :=
  let s := setup_environment env.apiKey
  if !s.1 then s.2
  else
    let l := init_llm env.llmOk
    if !l.1 then s.2 ++ l.2
    else
      let ev := s.2 ++ l.2 ++ [Event.promptedURL]
      if env.url == "" then ev ++ [Event.printed "No URL provided. Exiting."]
      else
        let d := load_and_split_documents env.docs
        let ev := ev ++ d.2
        if !pythonTruthyList d.1 then ev
        else
          let v := create_vector_store env.vectorOk
          let ev := ev ++ v.2
          match v.1 with
          | none => ev
          | some _ =>
            ev ++ [Event.printed "Creating RAG tool and agent...",
                   Event.printed "Agent with RAG tool is ready.",
                   Event.loopStarted]
               ++ (start_interactive_session env.agent env.inputs).map turnEventToEvent

/-- Agent behaviour that answers every question, used to instantiate
theorems at concrete sessions. -/
def okAgent : String → Except String String := fun q => Except.ok q

/-- Agent behaviour whose every invocation raises, used to instantiate
turn-error theorems at concrete sessions. -/
def errAgent : String → Except String String := fun _ => Except.error "boom"

/-! ### Chunker lemmas -/

theorem splitTextAux_sizes (cs ov : Nat) (hov : ov < cs) :
    ∀ (fuel : Nat) (t : List Char), t.length ≤ fuel →
      ∀ c ∈ splitTextAux cs ov fuel t, c.length ≤ cs := by
  intro fuel
  induction fuel with
  | zero =>
    intro t ht c hc
    simp [splitTextAux] at hc
    subst hc
    omega
  | succ n ih =>
    intro t ht c hc
    unfold splitTextAux at hc
    by_cases h : t.length ≤ cs
    · rw [if_pos h] at hc
      simp at hc
      subst hc
      exact h
    · rw [if_neg h] at hc
      rcases List.mem_cons.mp hc with h1 | h2
      · subst h1
        exact List.length_take_le _ _
      · exact ih _ (by simp [List.length_drop]; omega) c h2

theorem splitTextAux_head (cs ov : Nat) (hov : ov < cs) (fuel : Nat) (t : List Char) :
    ∃ b rest, splitTextAux cs ov fuel t = b :: rest ∧ b.take ov = t.take ov := by
  cases fuel with
  | zero => exact ⟨t, [], rfl, rfl⟩
  | succ n =>
    by_cases h : t.length ≤ cs
    · refine ⟨t, [], ?_, rfl⟩
      unfold splitTextAux
      rw [if_pos h]
    · refine ⟨t.take cs, splitTextAux cs ov n (t.drop (cs - ov)), ?_, ?_⟩
      · simp only [splitTextAux]
        rw [if_neg h]
      · rw [List.take_take, inf_eq_left.mpr hov.le]

theorem splitTextAux_overlap (cs ov : Nat) (hov : ov < cs) :
    ∀ (fuel : Nat) (t : List Char), t.length ≤ fuel →
      overlapOk ov (splitTextAux cs ov fuel t) = true := by
  intro fuel
  induction fuel with
  | zero => intro t ht; rfl
  | succ n ih =>
    intro t ht
    unfold splitTextAux
    by_cases h : t.length ≤ cs
    · rw [if_pos h]
      rfl
    · rw [if_neg h]
      obtain ⟨b, rest, hEq, hTake⟩ := splitTextAux_head cs ov hov n (t.drop (cs - ov))
      rw [hEq]
      have hTail : overlapOk ov (b :: rest) = true := by
        rw [← hEq]
        exact ih _ (by simp [List.length_drop]; omega)
      have hHead : (t.take cs).drop ((t.take cs).length - ov) = b.take ov := by
        have hlen : (t.take cs).length = cs := by
          rw [List.length_take]
          exact inf_eq_left.mpr (le_of_not_le h)
        rw [hlen, List.drop_take, hTake]
        congr 1
        omega
      show (((t.take cs).drop ((t.take cs).length - ov) == b.take ov)
          && overlapOk ov (b :: rest)) = true
      rw [hHead]
      simp [hTail]

/-- C1: for every chunk size above zero and every overlap below it, each
chunk produced by the splitter has length at most the chunk size, every
adjacent pair of chunks shares exactly the configured overlap of
boundary-adjacent text, and the program instantiates the splitter with
chunk size 1000 and overlap 200. -/
theorem chunking_size_and_overlap (cs ov : Nat) (t : List Char)
    (h0 : 0 < cs) (hov : ov < cs) :
    (∀ c ∈ splitText cs ov t, c.length ≤ cs) ∧
    overlapOk ov (splitText cs ov t) = true ∧
    chunk_size = 1000 ∧ chunk_overlap = 200 := by
  have hguard : ¬(cs ≤ ov ∨ cs = 0) := by omega
  refine ⟨?_, ?_, rfl, rfl⟩
  · intro c hc
    unfold splitText at hc
    rw [if_neg hguard] at hc
    exact splitTextAux_sizes cs ov hov t.length t le_rfl c hc
  · unfold splitText
    rw [if_neg hguard]
    exact splitTextAux_overlap cs ov hov t.length t le_rfl

theorem chunking_size_and_overlap_witness :
    0 < 5 ∧ 2 < 5 ∧
      ((∀ c ∈ splitText 5 2 "abcdefghij".data, c.length ≤ 5) ∧
       overlapOk 2 (splitText 5 2 "abcdefghij".data) = true ∧
       chunk_size = 1000 ∧ chunk_overlap = 200) :=
  ⟨by decide, by decide,
    chunking_size_and_overlap 5 2 "abcdefghij".data (by decide) (by decide)⟩

/-- C7: a document whose text is shorter than the chunk size splits into
exactly one chunk whose text is the whole document text. -/
theorem short_document_single_chunk (cs ov : Nat) (t : List Char)
    (h0 : 0 < cs) (hov : ov < cs) (hlen : t.length < cs) :
    splitText cs ov t = [t] := by
  unfold splitText
  rw [if_neg (by omega)]
  cases hfuel : t.length with
  | zero => rfl
  | succ n =>
    unfold splitTextAux
    rw [if_pos (by omega)]

theorem short_document_single_chunk_witness :
    0 < chunk_size ∧ chunk_overlap < chunk_size ∧
    "hello".data.length < chunk_size ∧
    splitText chunk_size chunk_overlap "hello".data = ["hello".data] :=
  ⟨by decide, by decide, by decide,
    short_document_single_chunk chunk_size chunk_overlap "hello".data
      (by decide) (by decide) (by decide)⟩

/-- C8: chunking is deterministic and side-effect free; two runs of the
splitter on identical inputs return identical chunk sequences (the
embedding of the splitter is a pure function of its inputs). -/
theorem chunking_deterministic (cs ov : Nat) (t1 t2 : List Char) (h : t1 = t2) :
    splitText cs ov t1 = splitText cs ov t2 := by
  rw [h]

theorem chunking_deterministic_witness :
    "abc".data = "abc".data ∧
    splitText 5 2 "abc".data = splitText 5 2 "abc".data :=
  ⟨rfl, chunking_deterministic 5 2 "abc".data "abc".data rfl⟩

/-! ### Retriever and agent-loop claims -/

/-- C2: for every query and every index built from a set of chunks, the
retrieval result is an ordered sequence whose length is at most `k` and
equals the minimum of `k` and the number of indexed chunks, with `k` fixed
at construction to 3. -/
theorem retrieval_result_length (sim : List Char → List Char → Nat)
    (chunks : List (List Char)) (query : List Char) :
    (document_search sim chunks query).length = min retriever_k chunks.length ∧
    (document_search sim chunks query).length ≤ retriever_k ∧
    retriever_k = 3 := by
  have h1 : (document_search sim chunks query).length
      = min retriever_k chunks.length := by
    unfold document_search vectorSearch
    rw [List.length_take, List.length_mergeSort, List.length_map]
  exact ⟨h1, by rw [h1]; exact Nat.min_le_left _ _, rfl⟩

theorem agentLoop_iterations_le
    (d : String → List ToolInvocation → ModelDecision)
    (tool : String → String) (input : String) :
    ∀ (fuel : Nat) (transcript : List ToolInvocation),
      (agentLoop d tool input fuel transcript).2 ≤ fuel := by
  intro fuel
  induction fuel with
  | zero => intro tr; exact Nat.le_refl 0
  | succ n ih =>
    intro tr
    show (agentLoop d tool input (n + 1) tr).2 ≤ n + 1
    simp only [agentLoop]
    cases d input tr with
    | finalAnswer out => exact Nat.zero_le _
    | toolCall q => exact Nat.succ_le_succ (ih _)

/-- C6: for every model decision behaviour (including one requesting the
`document_search` tool at every reasoning step), every tool and every
question, the agent loop returns an output after at most the configured
maximum number of tool-call iterations. -/
theorem agent_loop_guard (d : String → List ToolInvocation → ModelDecision)
    (tool : String → String) (maxIterations : Nat) (input : String) :
    (agent_executor_invoke d tool maxIterations input).2 ≤ maxIterations :=
  agentLoop_iterations_le d tool input maxIterations []

/-! ### Session-loop claims -/

/-- C3: an input whose Python-lowered form is the sentinel `exit` ends the
session immediately: the trace is just the goodbye event, so the agent is
invoked neither on that input nor on any later one. -/
theorem exit_sentinel_terminates (agent : String → Except String String)
    (q : String) (rest : List String) (h : pyLower q = "exit") :
    start_interactive_session agent (q :: rest) = [TurnEvent.goodbye] ∧
    invokedQuestions (start_interactive_session agent (q :: rest)) = [] := by
  have hx : isExit q = true := by
    unfold isExit
    rw [h]
    rfl
  have hs : start_interactive_session agent (q :: rest) = [TurnEvent.goodbye] := by
    simp only [start_interactive_session]
    rw [if_pos hx]
  exact ⟨hs, by rw [hs]; rfl⟩

theorem exit_sentinel_terminates_witness :
    pyLower "EXIT" = "exit" ∧
    (start_interactive_session okAgent ["EXIT", "later question"]
        = [TurnEvent.goodbye] ∧
     invokedQuestions (start_interactive_session okAgent ["EXIT", "later question"])
        = []) :=
  ⟨by decide, exit_sentinel_terminates okAgent "EXIT" ["later question"] (by decide)⟩

/-- C4: when the agent invocation for a question raises an error, the loop
catches it at the turn boundary, records the printed error message, and
continues on the remaining inputs with the same agent (the built index and
agent are unchanged for subsequent questions). -/
theorem turn_error_recovered (agent : String → Except String String)
    (q e : String) (rest : List String)
    (hq : isExit q = false) (he : agent q = Except.error e) :
    start_interactive_session agent (q :: rest)
      = TurnEvent.errored q e :: start_interactive_session agent rest ∧
    turnEventToEvent (TurnEvent.errored q e)
      = Event.printed ("An error occurred: " ++ e) := by
  constructor
  · simp only [start_interactive_session]
    rw [if_neg (by simp [hq]), he]
  · rfl

theorem turn_error_recovered_witness :
    isExit "hi" = false ∧ errAgent "hi" = Except.error "boom" ∧
    (start_interactive_session errAgent ["hi", "next"]
        = TurnEvent.errored "hi" "boom" :: start_interactive_session errAgent ["next"] ∧
     turnEventToEvent (TurnEvent.errored "hi" "boom")
        = Event.printed ("An error occurred: " ++ "boom")) :=
  ⟨by decide, rfl, turn_error_recovered errAgent "hi" "boom" ["next"] (by decide) rfl⟩

/-- C9: the sentinel is matched only up to letter case with no trimming:
any input whose Python-lowered form differs from `exit` — in particular
the empty string and whitespace-padded variants — is not the sentinel and
is forwarded to the agent as a question. -/
theorem non_sentinel_forwarded (agent : String → Except String String)
    (q : String) (rest : List String) (h : pyLower q ≠ "exit") :
    isExit q = false ∧
    invokedQuestions (start_interactive_session agent (q :: rest))
      = q :: invokedQuestions (start_interactive_session agent rest) ∧
    isExit "" = false ∧ isExit " exit " = false := by
  have hx : isExit q = false := by
    unfold isExit
    exact beq_eq_false_iff_ne.mpr h
  refine ⟨hx, ?_, by decide, by decide⟩
  simp only [start_interactive_session]
  rw [if_neg (by simp [hx])]
  cases hA : agent q with
  | ok out => simp [invokedQuestions]
  | error e => simp [invokedQuestions]

theorem non_sentinel_forwarded_witness :
    pyLower " exit " ≠ "exit" ∧
    (isExit " exit " = false ∧
     invokedQuestions (start_interactive_session okAgent [" exit ", "next"])
        = " exit " :: invokedQuestions (start_interactive_session okAgent ["next"]) ∧
     isExit "" = false ∧ isExit " exit " = false) :=
  ⟨by decide, non_sentinel_forwarded okAgent " exit " ["next"] (by decide)⟩

/-! ### Setup-phase claims -/

theorem loopStarted_notin_load (docs : Option (List (List Char))) :
    Event.loopStarted ∉ (load_and_split_documents docs).2 := by
  cases docs <;> simp [load_and_split_documents]

theorem vectorBuild_notin_load (docs : Option (List (List Char))) :
    Event.vectorBuildStarted ∉ (load_and_split_documents docs).2 := by
  cases docs <;> simp [load_and_split_documents]

theorem loopStarted_notin_session (l : List TurnEvent) :
    Event.loopStarted ∉ l.map turnEventToEvent := by
  intro hmem
  rcases List.mem_map.mp hmem with ⟨te, _, hte⟩
  cases te <;> simp [turnEventToEvent] at hte

/-- C5: every setup failure — missing credential, failed model client,
empty URL, ingestion failure, index-build failure — ends `main` before the
interactive loop starts (the loop is reached exactly when every setup step
succeeds), each cause prints a distinct message, a missing API key yields
its message before the URL prompt is ever shown, and an empty URL yields
the no-URL message without ingestion being attempted; `main` is a total
function of its environment, so the controller returns normally. -/
theorem setup_failures_abort (env : Env) :
    (pythonTruthyStr env.apiKey = false →
       main_trace env
         = [Event.printed "ERROR: Groq API key not found.",
            Event.printed "Please create a .env file and add your GROQ_API_KEY to it."] ∧
       Event.promptedURL ∉ main_trace env ∧
       Event.loopStarted ∉ main_trace env) ∧
    (pythonTruthyStr env.apiKey = true → env.llmOk = true → env.url = "" →
       Event.printed "No URL provided. Exiting." ∈ main_trace env ∧
       Event.ingestionStarted ∉ main_trace env ∧
       Event.loopStarted ∉ main_trace env) ∧
    (Event.loopStarted ∈ main_trace env ↔
       pythonTruthyStr env.apiKey = true ∧ env.llmOk = true ∧ env.url ≠ "" ∧
       pythonTruthyList (load_and_split_documents env.docs).1 = true ∧
       env.vectorOk = true) ∧
    ["ERROR: Groq API key not found.",
     "Error initializing Groq LLM: ",
     "No URL provided. Exiting.",
     "Error loading or splitting documents: ",
     "Error creating vector store: "].Nodup := by
  refine ⟨?_, ?_, ?_, by decide⟩
  · intro hk
    simp [main_trace, setup_environment, hk]
  · intro hk hl hu
    simp [main_trace, setup_environment, init_llm, hk, hl, hu]
  · cases hk : pythonTruthyStr env.apiKey with
    | false => simp [main_trace, setup_environment, hk]
    | true =>
      cases hl : env.llmOk with
      | false => simp [main_trace, setup_environment, init_llm, hk, hl]
      | true =>
        by_cases hu : env.url = ""
        · simp [main_trace, setup_environment, init_llm, hk, hl, hu]
        · have hu2 : (env.url == "") = false := beq_eq_false_iff_ne.mpr hu
          cases hd : pythonTruthyList (load_and_split_documents env.docs).1 with
          | false =>
            simp [main_trace, setup_environment, init_llm, hk, hl, hu2, hd, hu,
                  loopStarted_notin_load]
          | true =>
            cases hv : env.vectorOk with
            | false =>
              simp [main_trace, setup_environment, init_llm, create_vector_store,
                    hk, hl, hu2, hd, hv, hu, loopStarted_notin_load]
            | true =>
              simp [main_trace, setup_environment, init_llm, create_vector_store,
                    hk, hl, hu2, hd, hv, hu]

theorem setup_failures_abort_witness :
    pythonTruthyStr (none : Option String) = false ∧
    (main_trace ⟨none, true, "u", some [], true, okAgent, []⟩
       = [Event.printed "ERROR: Groq API key not found.",
          Event.printed "Please create a .env file and add your GROQ_API_KEY to it."] ∧
     Event.promptedURL ∉ main_trace ⟨none, true, "u", some [], true, okAgent, []⟩ ∧
     Event.loopStarted ∉ main_trace ⟨none, true, "u", some [], true, okAgent, []⟩) :=
  ⟨by decide,
    (setup_failures_abort ⟨none, true, "u", some [], true, okAgent, []⟩).1 (by decide)⟩

/-- C10: ingestion that succeeds with zero chunks is treated like an
ingestion failure: `main` returns before the vector store is built and the
interactive loop never starts. -/
theorem zero_chunks_aborts (env : Env)
    (hk : pythonTruthyStr env.apiKey = true) (hl : env.llmOk = true)
    (hu : env.url ≠ "") (hd : (load_and_split_documents env.docs).1 = some []) :
    Event.vectorBuildStarted ∉ main_trace env ∧
    Event.loopStarted ∉ main_trace env := by
  have hu2 : (env.url == "") = false := beq_eq_false_iff_ne.mpr hu
  have hdt : pythonTruthyList (load_and_split_documents env.docs).1 = false := by
    rw [hd]
    rfl
  constructor
  · simp [main_trace, setup_environment, init_llm, hk, hl, hu2, hdt,
          vectorBuild_notin_load]
  · simp [main_trace, setup_environment, init_llm, hk, hl, hu2, hdt,
          loopStarted_notin_load]

theorem zero_chunks_aborts_witness :
    pythonTruthyStr (some "key") = true ∧ "u" ≠ "" ∧
    (load_and_split_documents (some [])).1 = some [] ∧
    (Event.vectorBuildStarted ∉ main_trace ⟨some "key", true, "u", some [], true, okAgent, []⟩ ∧
     Event.loopStarted ∉ main_trace ⟨some "key", true, "u", some [], true, okAgent, []⟩) :=
  ⟨by decide, by decide, rfl,
    zero_chunks_aborts ⟨some "key", true, "u", some [], true, okAgent, []⟩
      (by decide) rfl (by decide) rfl⟩
